import Mathlib

/-!
Shallow embedding of the device state synchronization engine of
homebridge-switchbot, as implemented by the `Fan` accessory class
(src/unnamed/part_000, a sibling of src/src/device/motion.ts with the same
structure).  JavaScript characteristic values are modelled by `JsVal`
(undefined, booleans, integers, strings); JavaScript strict equality `===`
on these values coincides with decidable equality on `JsVal` because no NaN
value ever flows through a characteristic field (the one NaN-producing
conversion, `Number(body.battery)`, is modelled separately by `JsNum`).
-/

/-- Model of a JavaScript value as it appears in a HomeKit characteristic
field or a webhook payload field: `undef` is `undefined` (an absent
destructured field), and the other constructors are the primitive values the
source actually stores. -/
inductive JsVal
  | undef
  | b (x : Bool)
  | n (x : Int)
  | s (v : String)
deriving DecidableEq, Repr

/-- JavaScript truthiness of a `JsVal`, as used by `if (this.Fan.Active)`
and `if (version)` in the source. -/
def JsVal.truthy : JsVal → Bool
  | .undef => false
  | .b x => x
  | .n x => x != 0
  | .s v => v != ""

/-- Result of JavaScript `Number(...)` on a possibly-absent numeric JSON
field: a number or NaN. -/
inductive JsNum
  | nan
  | num (z : Int)
deriving DecidableEq, Repr

/-- JavaScript `Number(x)` applied to a numeric JSON field that may be
absent: `Number(undefined)` is NaN. -/
def jsToNumber : Option Int → JsNum
  | none => JsNum.nan
  | some z => JsNum.num z

/-- JavaScript `<` against a number literal: any comparison with NaN is
false. -/
def jsNumLt (a : JsNum) (bound : Int) : Bool :=
  match a with
  | JsNum.nan => false
  | JsNum.num z => z < bound

/-- The three mutable Fan service fields of the `Fan` class
(`this.Fan.Active`, `this.Fan.SwingMode`, `this.Fan.RotationSpeed`). -/
structure FanFields where
  Active : JsVal
  SwingMode : JsVal
  RotationSpeed : JsVal
deriving DecidableEq, Repr

/-- The mutable Battery service fields of the `Fan` class
(`this.Battery.BatteryLevel`, `this.Battery.StatusLowBattery`,
`this.Battery.ChargingState`). -/
structure BatteryFields where
  BatteryLevel : JsVal
  StatusLowBattery : JsVal
  ChargingState : JsVal
deriving DecidableEq, Repr

/-- The cached baseline stored on `accessory.context`, one slot per field
that `updateHomeKitCharacteristics` copies into it. -/
structure ContextFields where
  Active : JsVal
  SwingMode : JsVal
  RotationSpeed : JsVal
  BatteryLevel : JsVal
  ChargingState : JsVal
  StatusLowBattery : JsVal
deriving DecidableEq, Repr

/-- One device's state as the cloud refresh path sees it: the live service
fields plus the cached context. -/
structure FanDeviceState where
  fan : FanFields
  battery : BatteryFields
  context : ContextFields
deriving DecidableEq, Repr

/-- The `body` of a cloud status response, with the fields
`Fan.openAPIparseStatus` reads: `power`, `oscillation`, `fanSpeed`,
`chargingStatus` are copied or compared as JavaScript values, and `battery`
is a numeric JSON field that may be absent (so `Number(body.battery)` may be
NaN). -/
structure DeviceStatusBody where
  power : JsVal
  oscillation : JsVal
  fanSpeed : JsVal
  chargingStatus : JsVal
  battery : Option Int
deriving DecidableEq, Repr

/-- Embedding of `Fan.openAPIparseStatus` (src/unnamed/part_000, lines
199-244): Active from `power === 'on'`, SwingMode from
`oscillation === 'on'`, RotationSpeed copied from `fanSpeed`, ChargingState
from `chargingStatus === 'charging'`; BatteryLevel is `Number(body.battery)`,
StatusLowBattery is LOW (1) when that value is `< 10` (false for NaN) and
NORMAL (0) otherwise, and afterwards a NaN BatteryLevel is replaced by 100.
The firmware-version side effect on the AccessoryInformation service is
outside the state modelled here. -/
def openAPIparseStatus (body : DeviceStatusBody) (st : FanDeviceState) : FanDeviceState :=
  let active := if body.power = JsVal.s "on" then JsVal.n 1 else JsVal.n 0
  let swing := if body.oscillation = JsVal.s "on" then JsVal.n 1 else JsVal.n 0
  let charging := if body.chargingStatus = JsVal.s "charging" then JsVal.n 1 else JsVal.n 0
  let rawBattery := jsToNumber body.battery
  let lowBattery := if jsNumLt rawBattery 10 then JsVal.n 1 else JsVal.n 0
  let batteryLevel :=
    match rawBattery with
    | JsNum.nan => JsVal.n 100
    | JsNum.num z => JsVal.n z
  { st with
    fan := { Active := active, SwingMode := swing, RotationSpeed := body.fanSpeed }
    battery := { BatteryLevel := batteryLevel, StatusLowBattery := lowBattery, ChargingState := charging } }

/-- Embedding of `Fan.updateHomeKitCharacteristics` (src/unnamed/part_000,
lines 668-718): each field that is not `undefined` is copied into
`accessory.context` (and pushed to the HomeKit characteristic, outside this
state); an `undefined` field leaves its context slot unchanged. -/
def updateHomeKitCharacteristics (st : FanDeviceState) : FanDeviceState :=
  { st with
    context :=
      { Active := if st.fan.Active = JsVal.undef then st.context.Active else st.fan.Active
        SwingMode := if st.fan.SwingMode = JsVal.undef then st.context.SwingMode else st.fan.SwingMode
        RotationSpeed := if st.fan.RotationSpeed = JsVal.undef then st.context.RotationSpeed else st.fan.RotationSpeed
        BatteryLevel := if st.battery.BatteryLevel = JsVal.undef then st.context.BatteryLevel else st.battery.BatteryLevel
        ChargingState := if st.battery.ChargingState = JsVal.undef then st.context.ChargingState else st.battery.ChargingState
        StatusLowBattery := if st.battery.StatusLowBattery = JsVal.undef then st.context.StatusLowBattery else st.battery.StatusLowBattery } }

/-- Embedding of the success predicate used by `openAPIRefreshStatus` and
every command push:
`(statusCode === 200 || statusCode === 100) && (deviceStatus.statusCode === 200 || deviceStatus.statusCode === 100)`. -/
def statusSuccess (httpStatus bodyStatusCode : Int) : Bool :=
  (httpStatus == 200 || httpStatus == 100) && (bodyStatusCode == 200 || bodyStatusCode == 100)

/-- Embedding of `Fan.openAPIRefreshStatus` (src/unnamed/part_000, lines
302-325) after the response arrived: on the success predicate the payload is
parsed and the context updated; otherwise the state is untouched and the two
numeric codes are handed to `this.statusCode` (returned here as the log).
The surrounding try/catch makes the operation total: a status error never
escapes as an exception. -/
def openAPIRefreshStatus (st : FanDeviceState) (httpStatus bodyStatusCode : Int)
    (body : DeviceStatusBody) : FanDeviceState × List Int :=
  if statusSuccess httpStatus bodyStatusCode then
    (updateHomeKitCharacteristics (openAPIparseStatus body st), [])
  else
    (st, [httpStatus, bodyStatusCode])

/-- Embedding of the shared outcome handling of a cloud command write
(`openAPIpushChanges`, `pushRotationSpeedChanges`, `pushSwingModeChanges`,
src/unnamed/part_000 lines 482-490, 530-538, 576-584): the write is treated
as successful exactly on `statusSuccess`; otherwise the two numeric codes
are logged and nothing else happens (the cached context is not modified by
any push path). -/
def openAPIpushCommandResult (httpStatus bodyStatusCode : Int) : Bool × List Int :=
  if statusSuccess httpStatus bodyStatusCode then (true, []) else (false, [httpStatus, bodyStatusCode])

/-- The wire commands the `Fan` push paths can synthesize. -/
inductive FanCommand
  | turnOn
  | turnOff
  | setWindSpeed (parameter : JsVal)
  | setOscillation (parameter : String)
deriving DecidableEq, Repr

/-- Whether a command is the power on/off command. -/
def FanCommand.isPower : FanCommand → Bool
  | .turnOn => true
  | .turnOff => true
  | _ => false

/-- Whether a command is a `setWindSpeed` command. -/
def FanCommand.isWind : FanCommand → Bool
  | .setWindSpeed _ => true
  | _ => false

/-- Whether a command is a `setOscillation` command. -/
def FanCommand.isOsc : FanCommand → Bool
  | .setOscillation _ => true
  | _ => false

/-- Embedding of `Fan.pushRotationSpeedChanges` (src/unnamed/part_000, lines
510-548) as the list of commands it sends: the source's change-detection
guard reads `this.Fan.SwingMode !== this.accessory.context.SwingMode` (line
512), not RotationSpeed, and on a hit sends one `setWindSpeed` command whose
parameter is the current `RotationSpeed`. -/
def pushRotationSpeedChanges (fan : FanFields) (cached : ContextFields) : List FanCommand :=
  if fan.SwingMode ≠ cached.SwingMode then [FanCommand.setWindSpeed fan.RotationSpeed] else []

/-- Embedding of `Fan.pushSwingModeChanges` (src/unnamed/part_000, lines
550-594) as the list of commands it sends: when `SwingMode` differs from the
cached context value, one `setOscillation` command with parameter `on` when
`SwingMode === SWING_ENABLED` (1) and `off` otherwise. -/
def pushSwingModeChanges (fan : FanFields) (cached : ContextFields) : List FanCommand :=
  if fan.SwingMode ≠ cached.SwingMode then
    [FanCommand.setOscillation (if fan.SwingMode = JsVal.n 1 then "on" else "off")]
  else []

/-- Embedding of `Fan.openAPIpushChanges` (src/unnamed/part_000, lines
456-508) as the list of commands one cloud dispatch cycle sends: a
`turnOn`/`turnOff` command when `Active !== context.Active` (chosen by the
truthiness of `Active`), then `pushRotationSpeedChanges` and
`pushSwingModeChanges`, each run only when `this.Fan.Active` is truthy. -/
def openAPIpushChanges (fan : FanFields) (cached : ContextFields) : List FanCommand :=
  (if fan.Active ≠ cached.Active then
    [if fan.Active.truthy then FanCommand.turnOn else FanCommand.turnOff]
  else [])
  ++ (if fan.Active.truthy then pushRotationSpeedChanges fan cached else [])
  ++ (if fan.Active.truthy then pushSwingModeChanges fan cached else [])

/-- Embedding of `Fan.BLEpushChanges` (src/unnamed/part_000, lines 408-454)
as the list of local commands it sends: when `Active !== context.Active`,
one `turnOn` when `Active` is truthy, otherwise one `turnOff`; no command
otherwise. -/
def BLEpushChanges (fan : FanFields) (cached : ContextFields) : List FanCommand :=
  if fan.Active ≠ cached.Active then
    [if fan.Active.truthy then FanCommand.turnOn else FanCommand.turnOff]
  else []

/-- Post-state of `Fan.BLEpushChanges` on the Fan fields: the success
continuation (src/unnamed/part_000, lines 438-443) runs
`this.Fan.Active = false` unconditionally; the catch continuation and the
no-change branch leave the fields alone. -/
def BLEpushChangesResult (fan : FanFields) (cached : ContextFields) (success : Bool) : FanFields :=
  if fan.Active ≠ cached.Active then
    if success then { fan with Active := JsVal.b false } else fan
  else fan

/-- A hub setter invocation of the `Fan` class: `ActiveSet`,
`RotationSpeedSet`, `SwingModeSet`, `OnSet` or `BrightnessSet`
(src/unnamed/part_000, lines 599-666), carrying the requested value. -/
inductive SetterEvent
  | activeSet (value : JsVal)
  | rotationSpeedSet (value : JsVal)
  | swingModeSet (value : JsVal)
  | onSet (value : JsVal)
  | brightnessSet (value : JsVal)
deriving DecidableEq, Repr

/-- The state a burst of setter calls acts on: the Fan fields, the LightBulb
fields, and a counter of `doFanUpdate.next()` emissions. -/
structure HubState where
  fan : FanFields
  lightBulbOn : JsVal
  brightness : JsVal
  signals : Nat
deriving DecidableEq, Repr

/-- Embedding of one hub setter call: each of the five setters assigns the
requested value to its field immediately and then emits
`this.doFanUpdate.next()` (the logging branches compare values but change
nothing). -/
def applySetter (s : HubState) : SetterEvent → HubState
  | .activeSet v => { s with fan := { s.fan with Active := v }, signals := s.signals + 1 }
  | .rotationSpeedSet v => { s with fan := { s.fan with RotationSpeed := v }, signals := s.signals + 1 }
  | .swingModeSet v => { s with fan := { s.fan with SwingMode := v }, signals := s.signals + 1 }
  | .onSet v => { s with lightBulbOn := v, signals := s.signals + 1 }
  | .brightnessSet v => { s with brightness := v, signals := s.signals + 1 }

/-- Sequential application of a burst of setter calls. -/
def runBurst (burst : List SetterEvent) (s : HubState) : HubState :=
  burst.foldl applySetter s

/-- Modelled from the semantics of the rxjs `debounceTime` operator the
constructor subscribes `doFanUpdate` through (src/unnamed/part_000, lines
166-182; rxjs is an external dependency): all signals arriving within one
debounce window collapse into a single emission after the window, so a
nonempty burst produces exactly one `pushChanges` invocation and an empty
one produces none. -/
def flushCount (burst : List SetterEvent) : Nat :=
  if burst.isEmpty then 0 else 1

/-- The value an `ActiveSet` call writes, if the event is one. -/
def selActive : SetterEvent → Option JsVal
  | .activeSet v => some v
  | _ => none

/-- The value a `RotationSpeedSet` call writes, if the event is one. -/
def selRotationSpeed : SetterEvent → Option JsVal
  | .rotationSpeedSet v => some v
  | _ => none

/-- The value a `SwingModeSet` call writes, if the event is one. -/
def selSwingMode : SetterEvent → Option JsVal
  | .swingModeSet v => some v
  | _ => none

/-- The value an `OnSet` call writes, if the event is one. -/
def selOn : SetterEvent → Option JsVal
  | .onSet v => some v
  | _ => none

/-- The value a `BrightnessSet` call writes, if the event is one. -/
def selBrightness : SetterEvent → Option JsVal
  | .brightnessSet v => some v
  | _ => none

/-- Last value a burst requests for one field (selected by `sel`), starting
from a default: the value the field holds at flush time. -/
def lastFieldValue (sel : SetterEvent → Option JsVal) : List SetterEvent → JsVal → JsVal
  | [], d => d
  | e :: rest, d => lastFieldValue sel rest ((sel e).getD d)

/-- Modelled from the semantics of the rxjs `skipWhile` operator used by the
refresh interval pipeline (src/unnamed/part_000, lines 154-159; rxjs is an
external dependency): given the value of `fanUpdateInProgress` at each tick,
returns whether each tick reaches the subscriber. `skipWhile` drops elements
only while its predicate has returned true for every element so far; from
the first tick at which the flag is false, every subsequent tick is
delivered regardless of the flag. -/
def skipWhileEmits : List Bool → List Bool
  | [] => []
  | inProgress :: rest =>
    if inProgress then false :: skipWhileEmits rest
    else true :: rest.map (fun _ => true)

/-- The guard flag consulted by the refresh interval. -/
structure UpdateFlag where
  fanUpdateInProgress : Bool
deriving DecidableEq, Repr

/-- Effect of one refresh interval tick on the flag: the subscriber runs
`refreshStatus`, which never assigns `fanUpdateInProgress`
(src/unnamed/part_000, lines 154-159 and 251-325). -/
def refreshIntervalTickEffect (f : UpdateFlag) : UpdateFlag := f

/-- Effect of the `tap` stage of the `doFanUpdate` pipeline: a change signal
sets `fanUpdateInProgress = true` (src/unnamed/part_000, lines 168-170). -/
def doFanUpdateTapEffect (f : UpdateFlag) : UpdateFlag :=
  { f with fanUpdateInProgress := true }

/-- Effect of the end of a debounced push cycle: after `pushChanges`
resolves or its error is logged, `fanUpdateInProgress = false`
(src/unnamed/part_000, line 181). -/
def pushCycleDoneEffect (f : UpdateFlag) : UpdateFlag :=
  { f with fanUpdateInProgress := false }

/-- The configuration bits `refreshStatus`/`pushChanges` branch on:
`device.enableCloudService`, `this.BLE`, `this.OpenAPI`, the presence of
`platform.config.credentials?.token`, and `device.offline`. -/
structure DeviceConfig where
  enableCloudService : Bool
  ble : Bool
  openAPI : Bool
  hasToken : Bool
  offline : Bool
deriving DecidableEq, Repr

/-- The branch a refresh or push cycle takes. -/
inductive RefreshAction
  | logCloudDisabled
  | bleRefresh
  | openAPIRefresh
  | offlinePath
deriving DecidableEq, Repr

/-- Embedding of the branch structure of `Fan.refreshStatus`
(src/unnamed/part_000, lines 251-263): log when cloud service is disabled
but OpenAPI is the transport; otherwise BLE; otherwise OpenAPI with a token;
otherwise `offlineOff` plus a debug log, with no network call. -/
def refreshStatusDispatch (d : DeviceConfig) : RefreshAction :=
  if !d.enableCloudService && d.openAPI then RefreshAction.logCloudDisabled
  else if d.ble then RefreshAction.bleRefresh
  else if d.openAPI && d.hasToken then RefreshAction.openAPIRefresh
  else RefreshAction.offlinePath

/-- Embedding of the branch structure of `Fan.pushChanges`
(src/unnamed/part_000, lines 387-398), an if-chain identical to
`refreshStatus`. -/
def pushChangesDispatch (d : DeviceConfig) : RefreshAction :=
  if !d.enableCloudService && d.openAPI then RefreshAction.logCloudDisabled
  else if d.ble then RefreshAction.bleRefresh
  else if d.openAPI && d.hasToken then RefreshAction.openAPIRefresh
  else RefreshAction.offlinePath

/-- Whether a branch performs network (or radio) I/O. -/
def performsNetwork : RefreshAction → Bool
  | RefreshAction.bleRefresh => true
  | RefreshAction.openAPIRefresh => true
  | _ => false

/-- A device's Fan fields together with the values currently shown on its
HomeKit characteristics (`Service.updateCharacteristic` writes the latter
and never the former). -/
structure DeviceView where
  fan : FanFields
  chars : FanFields
deriving DecidableEq, Repr

/-- Embedding of `Fan.offlineOff` (src/unnamed/part_000, lines 736-742):
only when `device.offline` is set, the HomeKit characteristics are written
with INACTIVE (0), RotationSpeed 0 and SWING_DISABLED (0); the `this.Fan`
fields and the cached context are not touched. -/
def offlineOff (offline : Bool) (v : DeviceView) : DeviceView :=
  if offline then
    { v with chars := { Active := JsVal.n 0, SwingMode := JsVal.n 0, RotationSpeed := JsVal.n 0 } }
  else v

/-- A webhook event payload as destructured by `Fan.registerWebhook`
(src/unnamed/part_000, line 333): each field is `undefined` when absent. -/
structure WebhookContext where
  version : JsVal
  battery : JsVal
  powerState : JsVal
  oscillation : JsVal
  chargingStatus : JsVal
  fanSpeed : JsVal
deriving DecidableEq, Repr

/-- Embedding of the webhook handler `Fan.registerWebhook` installs
(src/unnamed/part_000, lines 330-371): Active from `powerState === 'ON'`,
SwingMode from `oscillation === 'on'`, RotationSpeed and BatteryLevel copied
verbatim from the payload, ChargingState from
`chargingStatus === 'charging'`, `accessory.context.version` overwritten
only when `version` is truthy, and `StatusLowBattery` never touched.  The
whole body sits in a try/catch whose catch only logs, so the handler is
total. -/
def fanWebhookHandler (c : WebhookContext) (fan : FanFields) (batt : BatteryFields)
    (ctxVersion : JsVal) : FanFields × BatteryFields × JsVal :=
  ({ fan with
     Active := if c.powerState = JsVal.s "ON" then JsVal.n 1 else JsVal.n 0
     SwingMode := if c.oscillation = JsVal.s "on" then JsVal.n 1 else JsVal.n 0
     RotationSpeed := c.fanSpeed },
   { batt with
     BatteryLevel := c.battery
     ChargingState := if c.chargingStatus = JsVal.s "charging" then JsVal.n 1 else JsVal.n 0 },
   if c.version.truthy then c.version else ctxVersion)

/-- Concrete dispatch input: desired RotationSpeed differs from the cached
value while Active and SwingMode agree with the cache and the fan is on. -/
def fanSpeedDiffEx : FanFields :=
  { Active := JsVal.n 1, SwingMode := JsVal.n 0, RotationSpeed := JsVal.n 50 }

/-- Cached context for `fanSpeedDiffEx`: RotationSpeed 20, all else equal. -/
def ctxSpeedDiffEx : ContextFields :=
  { Active := JsVal.n 1, SwingMode := JsVal.n 0, RotationSpeed := JsVal.n 20
    BatteryLevel := JsVal.n 100, ChargingState := JsVal.n 0, StatusLowBattery := JsVal.n 0 }

/-- Concrete dispatch input: desired SwingMode differs from the cached value
while Active and RotationSpeed agree with the cache. -/
def fanSwingDiffEx : FanFields :=
  { Active := JsVal.n 1, SwingMode := JsVal.n 1, RotationSpeed := JsVal.n 20 }

/-- Cached context for `fanSwingDiffEx`: SwingMode disabled, all else equal. -/
def ctxSwingDiffEx : ContextFields :=
  { Active := JsVal.n 1, SwingMode := JsVal.n 0, RotationSpeed := JsVal.n 20
    BatteryLevel := JsVal.n 100, ChargingState := JsVal.n 0, StatusLowBattery := JsVal.n 0 }

/-- Concrete setter burst: turn the fan on, request speed 50, turn it off. -/
def burstEx : List SetterEvent :=
  [SetterEvent.activeSet (JsVal.n 1), SetterEvent.rotationSpeedSet (JsVal.n 50),
   SetterEvent.activeSet (JsVal.n 0)]

/-- Concrete hub state the example burst starts from. -/
def hubStateEx : HubState :=
  { fan := { Active := JsVal.n 0, SwingMode := JsVal.n 0, RotationSpeed := JsVal.n 20 }
    lightBulbOn := JsVal.b false, brightness := JsVal.n 0, signals := 0 }

/-- Concrete cloud status body reporting a battery value of 150. -/
def statusBody150 : DeviceStatusBody :=
  { power := JsVal.s "on", oscillation := JsVal.s "off", fanSpeed := JsVal.n 30
    chargingStatus := JsVal.s "charging", battery := some 150 }

/-- Concrete device state for running the parse examples. -/
def deviceStateEx : FanDeviceState :=
  { fan := { Active := JsVal.n 0, SwingMode := JsVal.n 0, RotationSpeed := JsVal.n 0 }
    battery := { BatteryLevel := JsVal.n 100, StatusLowBattery := JsVal.n 0, ChargingState := JsVal.n 0 }
    context := { Active := JsVal.n 0, SwingMode := JsVal.n 0, RotationSpeed := JsVal.n 0
                 BatteryLevel := JsVal.n 100, ChargingState := JsVal.n 0, StatusLowBattery := JsVal.n 0 } }

/-- Concrete configuration: a device flagged offline whose connection type
still resolves to BLE. -/
def cfgOfflineBLE : DeviceConfig :=
  { enableCloudService := true, ble := true, openAPI := false, hasToken := false, offline := true }

/-- Concrete device view with the fan on at speed 50. -/
def viewActiveEx : DeviceView :=
  { fan := { Active := JsVal.n 1, SwingMode := JsVal.n 1, RotationSpeed := JsVal.n 50 }
    chars := { Active := JsVal.n 1, SwingMode := JsVal.n 1, RotationSpeed := JsVal.n 50 } }

/-- Concrete webhook payload with every field absent. -/
def webhookAllAbsent : WebhookContext :=
  { version := JsVal.undef, battery := JsVal.undef, powerState := JsVal.undef
    oscillation := JsVal.undef, chargingStatus := JsVal.undef, fanSpeed := JsVal.undef }

/-- Concrete Fan fields with the fan on at speed 50. -/
def fanActiveOnEx : FanFields :=
  { Active := JsVal.n 1, SwingMode := JsVal.n 1, RotationSpeed := JsVal.n 50 }

/-- Concrete Battery fields with a normal battery at 80. -/
def battNormalEx : BatteryFields :=
  { BatteryLevel := JsVal.n 80, StatusLowBattery := JsVal.n 0, ChargingState := JsVal.n 0 }

/-- Concrete Fan fields asking to turn the fan on while the cache says off. -/
def fanBleEx : FanFields :=
  { Active := JsVal.n 1, SwingMode := JsVal.n 0, RotationSpeed := JsVal.n 0 }

/-- Cached context for `fanBleEx`: Active 0. -/
def ctxBleEx : ContextFields :=
  { Active := JsVal.n 0, SwingMode := JsVal.n 0, RotationSpeed := JsVal.n 0
    BatteryLevel := JsVal.n 100, ChargingState := JsVal.n 0, StatusLowBattery := JsVal.n 0 }

/-- Concrete Fan fields with the fan off while speed and swing both differ
from the cache. -/
def fanInactiveEx : FanFields :=
  { Active := JsVal.n 0, SwingMode := JsVal.n 1, RotationSpeed := JsVal.n 50 }

/-- Cached context for `fanInactiveEx`: fan on, speed 20, swing disabled. -/
def ctxInactiveEx : ContextFields :=
  { Active := JsVal.n 1, SwingMode := JsVal.n 0, RotationSpeed := JsVal.n 20
    BatteryLevel := JsVal.n 100, ChargingState := JsVal.n 0, StatusLowBattery := JsVal.n 0 }

/-- Concrete Fan fields equal to `ctxEqEx` on all three fields. -/
def fanEqEx : FanFields :=
  { Active := JsVal.n 1, SwingMode := JsVal.n 0, RotationSpeed := JsVal.n 20 }

/-- Cached context agreeing with `fanEqEx` on all three fields. -/
def ctxEqEx : ContextFields :=
  { Active := JsVal.n 1, SwingMode := JsVal.n 0, RotationSpeed := JsVal.n 20
    BatteryLevel := JsVal.n 100, ChargingState := JsVal.n 0, StatusLowBattery := JsVal.n 0 }

theorem applySetter_signals (s : HubState) (e : SetterEvent) :
    (applySetter s e).signals = s.signals + 1 := by
  cases e <;> rfl

theorem runBurst_cons (e : SetterEvent) (rest : List SetterEvent) (s : HubState) :
    runBurst (e :: rest) s = runBurst rest (applySetter s e) := rfl

theorem runBurst_signals (burst : List SetterEvent) (s : HubState) :
    (runBurst burst s).signals = s.signals + burst.length := by
  induction burst generalizing s with
  | nil => rfl
  | cons e rest ih =>
    rw [runBurst_cons, ih, applySetter_signals, List.length_cons]
    omega

theorem applySetter_Active (s : HubState) (e : SetterEvent) :
    (applySetter s e).fan.Active = (selActive e).getD s.fan.Active := by
  cases e <;> rfl

theorem applySetter_RotationSpeed (s : HubState) (e : SetterEvent) :
    (applySetter s e).fan.RotationSpeed = (selRotationSpeed e).getD s.fan.RotationSpeed := by
  cases e <;> rfl

theorem applySetter_SwingMode (s : HubState) (e : SetterEvent) :
    (applySetter s e).fan.SwingMode = (selSwingMode e).getD s.fan.SwingMode := by
  cases e <;> rfl

theorem applySetter_lightBulbOn (s : HubState) (e : SetterEvent) :
    (applySetter s e).lightBulbOn = (selOn e).getD s.lightBulbOn := by
  cases e <;> rfl

theorem applySetter_brightness (s : HubState) (e : SetterEvent) :
    (applySetter s e).brightness = (selBrightness e).getD s.brightness := by
  cases e <;> rfl

theorem runBurst_Active (burst : List SetterEvent) (s : HubState) :
    (runBurst burst s).fan.Active = lastFieldValue selActive burst s.fan.Active := by
  induction burst generalizing s with
  | nil => rfl
  | cons e rest ih =>
    rw [runBurst_cons, ih, applySetter_Active]
    rfl

theorem runBurst_RotationSpeed (burst : List SetterEvent) (s : HubState) :
    (runBurst burst s).fan.RotationSpeed = lastFieldValue selRotationSpeed burst s.fan.RotationSpeed := by
  induction burst generalizing s with
  | nil => rfl
  | cons e rest ih =>
    rw [runBurst_cons, ih, applySetter_RotationSpeed]
    rfl

theorem runBurst_SwingMode (burst : List SetterEvent) (s : HubState) :
    (runBurst burst s).fan.SwingMode = lastFieldValue selSwingMode burst s.fan.SwingMode := by
  induction burst generalizing s with
  | nil => rfl
  | cons e rest ih =>
    rw [runBurst_cons, ih, applySetter_SwingMode]
    rfl

theorem runBurst_lightBulbOn (burst : List SetterEvent) (s : HubState) :
    (runBurst burst s).lightBulbOn = lastFieldValue selOn burst s.lightBulbOn := by
  induction burst generalizing s with
  | nil => rfl
  | cons e rest ih =>
    rw [runBurst_cons, ih, applySetter_lightBulbOn]
    rfl

theorem runBurst_brightness (burst : List SetterEvent) (s : HubState) :
    (runBurst burst s).brightness = lastFieldValue selBrightness burst s.brightness := by
  induction burst generalizing s with
  | nil => rfl
  | cons e rest ih =>
    rw [runBurst_cons, ih, applySetter_brightness]
    rfl

/-- C1: the claim that every field whose desired value differs from its
cached value gets exactly one command, and every field whose desired value
equals its cached value gets none, is false on the code: with the fan on,
a RotationSpeed-only change produces zero commands (the speed push's guard
reads SwingMode), and a SwingMode-only change produces a `setWindSpeed`
command for the unchanged RotationSpeed alongside the `setOscillation`
command. -/
theorem openAPIpush_change_detection_mismatch :
    fanSpeedDiffEx.RotationSpeed ≠ ctxSpeedDiffEx.RotationSpeed
  ∧ fanSpeedDiffEx.Active = ctxSpeedDiffEx.Active
  ∧ fanSpeedDiffEx.Active.truthy = true
  ∧ openAPIpushChanges fanSpeedDiffEx ctxSpeedDiffEx = []
  ∧ fanSwingDiffEx.RotationSpeed = ctxSwingDiffEx.RotationSpeed
  ∧ openAPIpushChanges fanSwingDiffEx ctxSwingDiffEx
      = [FanCommand.setWindSpeed (JsVal.n 20), FanCommand.setOscillation "on"] := by
  decide

/-- C1 (amended): in one cloud dispatch cycle, exactly one power command is
sent when desired Active differs from the cached Active and none otherwise;
exactly one `setWindSpeed` and exactly one `setOscillation` command are sent
when desired Active is truthy and desired SwingMode differs from the cached
SwingMode (the rotation-speed push's change detection consults SwingMode,
not RotationSpeed), and none otherwise; and the commands appear in the fixed
order power, then `setWindSpeed`, then `setOscillation`. -/
theorem openAPIpushChanges_per_field (fan : FanFields) (cached : ContextFields) :
    ((openAPIpushChanges fan cached).countP FanCommand.isPower
      = if fan.Active = cached.Active then 0 else 1)
  ∧ ((openAPIpushChanges fan cached).countP FanCommand.isWind
      = if fan.Active.truthy = true ∧ fan.SwingMode ≠ cached.SwingMode then 1 else 0)
  ∧ ((openAPIpushChanges fan cached).countP FanCommand.isOsc
      = if fan.Active.truthy = true ∧ fan.SwingMode ≠ cached.SwingMode then 1 else 0)
  ∧ openAPIpushChanges fan cached
      = (openAPIpushChanges fan cached).filter FanCommand.isPower
        ++ (openAPIpushChanges fan cached).filter FanCommand.isWind
        ++ (openAPIpushChanges fan cached).filter FanCommand.isOsc := by
  by_cases hA : fan.Active = cached.Active
  · cases hT : cached.Active.truthy <;>
      by_cases hS : fan.SwingMode = cached.SwingMode <;>
        simp [openAPIpushChanges, pushRotationSpeedChanges, pushSwingModeChanges,
          hA, hS, hT, FanCommand.isPower, FanCommand.isWind, FanCommand.isOsc,
          List.countP_cons, List.countP_nil]
  · cases hT : fan.Active.truthy <;>
      by_cases hS : fan.SwingMode = cached.SwingMode <;>
        simp [openAPIpushChanges, pushRotationSpeedChanges, pushSwingModeChanges,
          hA, hS, hT, FanCommand.isPower, FanCommand.isWind, FanCommand.isOsc,
          List.countP_cons, List.countP_nil]

/-- C3: the claim that the parsed BatteryLevel is clamped to the range
0-100 is false on the code: a payload battery of 150 parses to
BatteryLevel 150. -/
theorem openAPIparseStatus_no_battery_clamp :
    (openAPIparseStatus statusBody150 deviceStateEx).battery.BatteryLevel = JsVal.n 150
  ∧ ¬ (150 : Int) ≤ 100 := by
  decide

/-- C3 (amended): the reconciliation rules round-trip the battery value
without clamping: a numeric battery value z parses to BatteryLevel z (for
every z, also outside 0-100), StatusLowBattery is LOW (1) exactly when the
value is below 10 and NORMAL (0) otherwise, and an absent battery value
(NaN after `Number(...)`) yields BatteryLevel 100 with StatusLowBattery
NORMAL. -/
theorem openAPIparseStatus_battery_roundtrip (z : Int) (st : FanDeviceState)
    (pv ov fs cs : JsVal) :
    ((openAPIparseStatus
        { power := pv, oscillation := ov, fanSpeed := fs, chargingStatus := cs, battery := some z }
        st).battery.BatteryLevel = JsVal.n z)
  ∧ ((openAPIparseStatus
        { power := pv, oscillation := ov, fanSpeed := fs, chargingStatus := cs, battery := some z }
        st).battery.StatusLowBattery = if z < 10 then JsVal.n 1 else JsVal.n 0)
  ∧ ((openAPIparseStatus
        { power := pv, oscillation := ov, fanSpeed := fs, chargingStatus := cs, battery := none }
        st).battery.BatteryLevel = JsVal.n 100)
  ∧ ((openAPIparseStatus
        { power := pv, oscillation := ov, fanSpeed := fs, chargingStatus := cs, battery := none }
        st).battery.StatusLowBattery = JsVal.n 0) := by
  by_cases hz : z < 10 <;>
    simp [openAPIparseStatus, jsToNumber, jsNumLt, hz]

/-- C4: a cloud status fetch or command write is successful exactly when the
HTTP status code is 200 or 100 and the body statusCode is 200 or 100; on any
other combination the state (including the cached context) is left
untouched, both numeric codes are logged, and no exception propagates (the
outcome functions are total); on success the refresh parses the payload and
updates the context. -/
theorem cloud_status_success_iff (st : FanDeviceState) (hs bs : Int) (body : DeviceStatusBody) :
    (statusSuccess hs bs = true ↔ ((hs = 200 ∨ hs = 100) ∧ (bs = 200 ∨ bs = 100)))
  ∧ (statusSuccess hs bs = false →
      (openAPIRefreshStatus st hs bs body).1 = st
      ∧ (openAPIRefreshStatus st hs bs body).2 = [hs, bs]
      ∧ openAPIpushCommandResult hs bs = (false, [hs, bs]))
  ∧ (statusSuccess hs bs = true →
      (openAPIRefreshStatus st hs bs body).1
        = updateHomeKitCharacteristics (openAPIparseStatus body st)
      ∧ (openAPIRefreshStatus st hs bs body).2 = []
      ∧ openAPIpushCommandResult hs bs = (true, [])) := by
  refine ⟨?_, fun h => ?_, fun h => ?_⟩
  · simp [statusSuccess, Bool.and_eq_true, Bool.or_eq_true, beq_iff_eq]
  · simp [openAPIRefreshStatus, openAPIpushCommandResult, h]
  · simp [openAPIRefreshStatus, openAPIpushCommandResult, h]

/-- C5: dispatching when desired equals cached on every field (Active,
SwingMode, RotationSpeed) issues zero commands, over the cloud transport and
over BLE alike. -/
theorem pushChanges_idempotent (fan : FanFields) (cached : ContextFields)
    (hA : fan.Active = cached.Active) (hS : fan.SwingMode = cached.SwingMode)
    (_hR : fan.RotationSpeed = cached.RotationSpeed) :
    openAPIpushChanges fan cached = [] ∧ BLEpushChanges fan cached = [] := by
  simp [openAPIpushChanges, BLEpushChanges, pushRotationSpeedChanges, pushSwingModeChanges, hA, hS]

/-- Witness for the idempotence theorem at a concrete state whose desired
fields all equal the cached fields. -/
theorem pushChanges_idempotent_witness :
    openAPIpushChanges fanEqEx ctxEqEx = [] ∧ BLEpushChanges fanEqEx ctxEqEx = [] :=
  pushChanges_idempotent fanEqEx ctxEqEx (by decide) (by decide) (by decide)

/-- C2: for every nonempty burst of hub setter calls within one debounce
window, each setter mutates its desired field immediately and emits one
change-requested signal (the signal count grows by the burst length), the
debounced pipeline issues exactly one outbound command cycle for the whole
burst, and the state the cycle reads carries the last value each field was
set to during the burst, so no intermediate value is dispatched and no final
value is lost. -/
theorem setter_burst_coalescing (burst : List SetterEvent) (s : HubState)
    (h : burst ≠ []) :
    flushCount burst = 1
  ∧ (runBurst burst s).signals = s.signals + burst.length
  ∧ (runBurst burst s).fan.Active = lastFieldValue selActive burst s.fan.Active
  ∧ (runBurst burst s).fan.RotationSpeed = lastFieldValue selRotationSpeed burst s.fan.RotationSpeed
  ∧ (runBurst burst s).fan.SwingMode = lastFieldValue selSwingMode burst s.fan.SwingMode
  ∧ (runBurst burst s).lightBulbOn = lastFieldValue selOn burst s.lightBulbOn
  ∧ (runBurst burst s).brightness = lastFieldValue selBrightness burst s.brightness
  ∧ (∀ v : JsVal, (applySetter s (SetterEvent.activeSet v)).fan.Active = v)
  ∧ (∀ v : JsVal, (applySetter s (SetterEvent.rotationSpeedSet v)).fan.RotationSpeed = v)
  ∧ (∀ v : JsVal, (applySetter s (SetterEvent.swingModeSet v)).fan.SwingMode = v)
  ∧ (∀ v : JsVal, (applySetter s (SetterEvent.onSet v)).lightBulbOn = v)
  ∧ (∀ v : JsVal, (applySetter s (SetterEvent.brightnessSet v)).brightness = v) := by
  refine ⟨?_, runBurst_signals burst s, runBurst_Active burst s,
    runBurst_RotationSpeed burst s, runBurst_SwingMode burst s,
    runBurst_lightBulbOn burst s, runBurst_brightness burst s,
    fun v => rfl, fun v => rfl, fun v => rfl, fun v => rfl, fun v => rfl⟩
  cases burst with
  | nil => exact absurd rfl h
  | cons e rest => rfl

/-- Witness for the coalescing theorem on a concrete three-call burst: one
flush, three signals, and the flush state holds the last requested Active
(0) and RotationSpeed (50). -/
theorem setter_burst_coalescing_witness :
    flushCount burstEx = 1
  ∧ (runBurst burstEx hubStateEx).signals = 3
  ∧ (runBurst burstEx hubStateEx).fan.Active = JsVal.n 0
  ∧ (runBurst burstEx hubStateEx).fan.RotationSpeed = JsVal.n 50 := by
  obtain ⟨h1, h2, h3, h4, -⟩ := setter_burst_coalescing burstEx hubStateEx (by decide)
  exact ⟨h1, h2.trans (by decide), h3.trans (by decide), h4.trans (by decide)⟩

/-- C6: the claim that a refresh tick arriving while the guard flag is
raised is skipped is false on the code: rxjs `skipWhile` stops skipping
permanently after the first tick at which `fanUpdateInProgress` was false,
so in the tick trace [false, true] the second tick runs `refreshStatus`
even though the flag is true at that tick. -/
theorem skipWhile_tick_during_push_not_skipped :
    skipWhileEmits [false, true] = [true, true]
  ∧ [false, true].get? 1 = some true := by
  decide

/-- C6 (amended): the refresh interval pipeline skips only the leading
prefix of ticks during which `fanUpdateInProgress` has been continuously
true since subscription; from the first tick at which the flag is false,
every subsequent tick is delivered regardless of the flag, so overlapping
`refreshStatus` executions are not prevented.  Moreover the flag is a push
guard, not a refresh guard: a refresh tick leaves it unchanged, while the
`doFanUpdate` pipeline raises it when a change signal arrives and lowers it
when the push cycle completes. -/
theorem skipWhile_skips_only_leading_prefix (pre post : List Bool)
    (h : ∀ x ∈ pre, x = true) :
    skipWhileEmits (pre ++ false :: post)
      = (pre.map fun _ => false) ++ true :: (post.map fun _ => true)
  ∧ (∀ f : UpdateFlag, refreshIntervalTickEffect f = f)
  ∧ (∀ f : UpdateFlag, (doFanUpdateTapEffect f).fanUpdateInProgress = true)
  ∧ (∀ f : UpdateFlag, (pushCycleDoneEffect f).fanUpdateInProgress = false) := by
  refine ⟨?_, fun f => rfl, fun f => rfl, fun f => rfl⟩
  induction pre with
  | nil => simp [skipWhileEmits]
  | cons x rest ih =>
    have hx : x = true := h x (List.mem_cons_self x rest)
    subst hx
    have ih2 := ih (fun y hy => h y (List.mem_cons_of_mem _ hy))
    simp [skipWhileEmits, ih2]

/-- Witness for the skipWhile theorem on the concrete trace with a raised
flag at tick 1, a lowered flag at tick 2 and a raised flag at tick 3: tick 1
is skipped and ticks 2 and 3 are delivered. -/
theorem skipWhile_skips_only_leading_prefix_witness :
    skipWhileEmits [true, false, true] = [false, true, true]
  ∧ (∀ f : UpdateFlag, refreshIntervalTickEffect f = f)
  ∧ (∀ f : UpdateFlag, (doFanUpdateTapEffect f).fanUpdateInProgress = true)
  ∧ (∀ f : UpdateFlag, (pushCycleDoneEffect f).fanUpdateInProgress = false) :=
  skipWhile_skips_only_leading_prefix [true] [true] (by decide)

/-- C7: the claim that an administratively offline device skips network I/O
and is forced to the safe baseline regardless of connection type is false on
the code: with `offline` set and a BLE connection type, both `refreshStatus`
and `pushChanges` take the BLE branch and perform radio I/O, `offlineOff` is
not reached, and even when `offlineOff` does run it writes only the HomeKit
characteristics, leaving the desired Fan fields as they were. -/
theorem offline_device_with_ble_still_does_network :
    refreshStatusDispatch cfgOfflineBLE = RefreshAction.bleRefresh
  ∧ pushChangesDispatch cfgOfflineBLE = RefreshAction.bleRefresh
  ∧ performsNetwork RefreshAction.bleRefresh = true
  ∧ cfgOfflineBLE.offline = true
  ∧ (offlineOff true viewActiveEx).fan = viewActiveEx.fan := by
  decide

/-- C7 (amended): refresh and push cycles branch identically, and the
`offline` flag plays no role in transport selection; the no-transport branch
(no cloud-disabled log, no BLE, no OpenAPI-with-token) is the only one that
skips network I/O and runs `offlineOff`; `offlineOff` forces the safe
baseline (Active INACTIVE, RotationSpeed 0, SwingMode SWING_DISABLED) onto
the HomeKit characteristics only when `device.offline` is set, and never
touches the desired Fan fields. -/
theorem offline_baseline_scope (d : DeviceConfig) (v : DeviceView) :
    refreshStatusDispatch d = pushChangesDispatch d
  ∧ refreshStatusDispatch { d with offline := true }
      = refreshStatusDispatch { d with offline := false }
  ∧ (refreshStatusDispatch d = RefreshAction.offlinePath ↔
      ((d.enableCloudService || !d.openAPI) && !d.ble && !(d.openAPI && d.hasToken)) = true)
  ∧ performsNetwork RefreshAction.offlinePath = false
  ∧ (offlineOff true v).chars
      = { Active := JsVal.n 0, SwingMode := JsVal.n 0, RotationSpeed := JsVal.n 0 }
  ∧ (offlineOff true v).fan = v.fan
  ∧ offlineOff false v = v := by
  obtain ⟨e, b, o, t, off⟩ := d
  cases e <;> cases b <;> cases o <;> cases t <;>
    simp [refreshStatusDispatch, pushChangesDispatch, performsNetwork, offlineOff]

/-- C8: the claim that a state field whose payload field is absent is left
unchanged by the webhook handler is false on the code: the all-absent
payload drives Active from ACTIVE (1) to INACTIVE (0) and overwrites
RotationSpeed with `undefined`. -/
theorem webhook_absent_fields_overwrite :
    webhookAllAbsent.powerState = JsVal.undef
  ∧ (fanWebhookHandler webhookAllAbsent fanActiveOnEx battNormalEx (JsVal.s "1.0")).1.Active
      = JsVal.n 0
  ∧ fanActiveOnEx.Active = JsVal.n 1
  ∧ (fanWebhookHandler webhookAllAbsent fanActiveOnEx battNormalEx (JsVal.s "1.0")).1.RotationSpeed
      = JsVal.undef
  ∧ fanActiveOnEx.RotationSpeed = JsVal.n 50 := by
  decide

/-- C8 (amended): the webhook handler is total (its body is wrapped in a
try/catch whose catch only logs, so no exception propagates), but absent
fields are not left unchanged: any `powerState` other than the string `ON`
(including `undefined`) forces Active to INACTIVE, any `oscillation` other
than `on` forces SwingMode to SWING_DISABLED, any `chargingStatus` other
than `charging` forces ChargingState to NOT_CHARGING, and `fanSpeed` and
`battery` are copied verbatim (absent values land as `undefined`);
`StatusLowBattery` is never touched, and the stored firmware version is the
only presence-guarded field. -/
theorem webhook_handler_field_effects (c : WebhookContext) (fan : FanFields)
    (batt : BatteryFields) (ctxVersion : JsVal) :
    (fanWebhookHandler c fan batt ctxVersion).1.Active
      = (if c.powerState = JsVal.s "ON" then JsVal.n 1 else JsVal.n 0)
  ∧ (fanWebhookHandler c fan batt ctxVersion).1.SwingMode
      = (if c.oscillation = JsVal.s "on" then JsVal.n 1 else JsVal.n 0)
  ∧ (fanWebhookHandler c fan batt ctxVersion).1.RotationSpeed = c.fanSpeed
  ∧ (fanWebhookHandler c fan batt ctxVersion).2.1.BatteryLevel = c.battery
  ∧ (fanWebhookHandler c fan batt ctxVersion).2.1.ChargingState
      = (if c.chargingStatus = JsVal.s "charging" then JsVal.n 1 else JsVal.n 0)
  ∧ (fanWebhookHandler c fan batt ctxVersion).2.1.StatusLowBattery = batt.StatusLowBattery
  ∧ (fanWebhookHandler c fan batt ctxVersion).2.2
      = (if c.version.truthy then c.version else ctxVersion) := by
  exact ⟨rfl, rfl, rfl, rfl, rfl, rfl, rfl⟩

/-- C9: in the BLE push path, whenever a command is dispatched (desired
Active differs from the cached Active) the command sent is `turnOn` exactly
when the desired Active is truthy, yet the success continuation sets the
desired Active field to `false` unconditionally, regardless of the value
just sent. -/
theorem BLEpush_success_sets_active_false (fan : FanFields) (cached : ContextFields)
    (h : fan.Active ≠ cached.Active) :
    BLEpushChanges fan cached
      = [if fan.Active.truthy then FanCommand.turnOn else FanCommand.turnOff]
  ∧ (BLEpushChangesResult fan cached true).Active = JsVal.b false := by
  simp [BLEpushChanges, BLEpushChangesResult, h]

/-- Witness for the BLE push theorem at a concrete state that sends
`turnOn` and still ends with Active = false. -/
theorem BLEpush_success_sets_active_false_witness :
    BLEpushChanges fanBleEx ctxBleEx = [FanCommand.turnOn]
  ∧ (BLEpushChangesResult fanBleEx ctxBleEx true).Active = JsVal.b false :=
  ⟨(BLEpush_success_sets_active_false fanBleEx ctxBleEx (by decide)).1.trans (by decide),
   (BLEpush_success_sets_active_false fanBleEx ctxBleEx (by decide)).2⟩

/-- C10: whenever the desired Active field is falsy at the time the cloud
dispatch cycle runs, the cycle issues no `setWindSpeed` and no
`setOscillation` command, even when RotationSpeed or SwingMode differs from
its cached value. -/
theorem inactive_withholds_secondary (fan : FanFields) (cached : ContextFields)
    (h : fan.Active.truthy = false) :
    (openAPIpushChanges fan cached).countP FanCommand.isWind = 0
  ∧ (openAPIpushChanges fan cached).countP FanCommand.isOsc = 0 := by
  by_cases hA : fan.Active = cached.Active
  · have h2 : cached.Active.truthy = false := hA ▸ h
    simp [openAPIpushChanges, hA, h2, FanCommand.isWind, FanCommand.isOsc,
      List.countP_cons, List.countP_nil]
  · simp [openAPIpushChanges, h, hA, FanCommand.isWind, FanCommand.isOsc,
      List.countP_cons, List.countP_nil]

/-- Witness for the withheld-secondary theorem at a concrete state with the
fan off while both RotationSpeed and SwingMode differ from the cache. -/
theorem inactive_withholds_secondary_witness :
    (openAPIpushChanges fanInactiveEx ctxInactiveEx).countP FanCommand.isWind = 0
  ∧ (openAPIpushChanges fanInactiveEx ctxInactiveEx).countP FanCommand.isOsc = 0 :=
  inactive_withholds_secondary fanInactiveEx ctxInactiveEx (by decide)
